import Mathlib

/-!
Shallow embedding of the spectral index engine of src/spectral_tool_1.py:
the function analyze_spectral_data together with the quantities it
computes (ndvi, red_edge, maturity_score, boll_weight, chlorophyll_a,
chlorophyll_b, total_chlorophyll, anthocyanin) and the per-mode result
dictionaries.  The reflectance and wavelength entries are modelled as
exact rationals; numpy/CPython floating-point behaviour that the claims
touch (division of a finite value by zero producing an infinity or nan
rather than raising, nan comparisons being false, the argument order of
the builtins min and max, round-half-to-even) is modelled by the value
type PyF below.
-/

/-- Model of a numpy floating value: a finite rational, an infinity or nan. -/
inductive PyF where
  | fin (q : ℚ)
  | pinf
  | ninf
  | nan
  deriving DecidableEq

namespace PyF

/-- IEEE addition as numpy performs it on scalars. -/
def add : PyF → PyF → PyF
  | fin a, fin b => fin (a + b)
  | nan, _ => nan
  | _, nan => nan
  | pinf, ninf => nan
  | ninf, pinf => nan
  | pinf, _ => pinf
  | _, pinf => pinf
  | ninf, _ => ninf
  | _, ninf => ninf

/-- IEEE negation. -/
def neg : PyF → PyF
  | fin a => fin (-a)
  | pinf => ninf
  | ninf => pinf
  | nan => nan

/-- IEEE subtraction. -/
def sub (x y : PyF) : PyF := add x (neg y)

/-- IEEE multiplication. -/
def mul : PyF → PyF → PyF
  | fin a, fin b => fin (a * b)
  | nan, _ => nan
  | _, nan => nan
  | pinf, fin b => if 0 < b then pinf else if b < 0 then ninf else nan
  | fin a, pinf => if 0 < a then pinf else if a < 0 then ninf else nan
  | ninf, fin b => if 0 < b then ninf else if b < 0 then pinf else nan
  | fin a, ninf => if 0 < a then ninf else if a < 0 then pinf else nan
  | pinf, pinf => pinf
  | pinf, ninf => ninf
  | ninf, pinf => ninf
  | ninf, ninf => pinf

/-- IEEE division.  Dividing a finite value by zero yields an infinity or
nan (numpy emits a RuntimeWarning, it does not raise an exception). -/
def div : PyF → PyF → PyF
  | fin a, fin b =>
      if b = 0 then (if 0 < a then pinf else if a < 0 then ninf else nan)
      else fin (a / b)
  | nan, _ => nan
  | _, nan => nan
  | pinf, fin b => if 0 ≤ b then pinf else ninf
  | ninf, fin b => if 0 ≤ b then ninf else pinf
  | fin _, pinf => fin 0
  | fin _, ninf => fin 0
  | _, _ => nan

/-- IEEE strict comparison; every comparison with nan is false. -/
def lt : PyF → PyF → Bool
  | nan, _ => false
  | _, nan => false
  | fin a, fin b => decide (a < b)
  | ninf, ninf => false
  | ninf, _ => true
  | _, ninf => false
  | pinf, _ => false
  | fin _, pinf => true

/-- IEEE non-strict comparison; every comparison with nan is false. -/
def le : PyF → PyF → Bool
  | nan, _ => false
  | _, nan => false
  | fin a, fin b => decide (a ≤ b)
  | ninf, _ => true
  | _, ninf => false
  | _, pinf => true
  | pinf, _ => false

/-- CPython builtin min on two arguments: keep the first, replace it when
the second compares strictly below it. -/
def pymin (a b : PyF) : PyF := if lt b a then b else a

/-- CPython builtin max on two arguments: keep the first, replace it when
the second compares strictly above it. -/
def pymax (a b : PyF) : PyF := if lt a b then b else a

end PyF

/-- Round half to even on an exact rational, the rounding CPython's round
builtin uses. -/
def rhe (q : ℚ) : ℤ :=
  if q - (Int.floor q : ℚ) < 1/2 then Int.floor q
  else if 1/2 < q - (Int.floor q : ℚ) then Int.floor q + 1
  else if Int.floor q % 2 = 0 then Int.floor q else Int.floor q + 1

/-- CPython round(x, n) on an exact rational value. -/
def pyRoundQ (q : ℚ) (n : ℕ) : ℚ := (rhe (q * 10 ^ n) : ℚ) / 10 ^ n

/-- round(x, n) lifted to PyF; nan and the infinities round to themselves. -/
def PyF.round (n : ℕ) : PyF → PyF
  | .fin q => .fin (pyRoundQ q n)
  | x => x

/-- One (wavelength, reflectance) sample of a spectrum. -/
structure Sample where
  wavelength : ℚ
  reflectance : ℚ
  deriving DecidableEq

/-- A spectrum: the ordered sample list handed to the engine. -/
abbrev Spectrum := List Sample

/-- The reflectance column of the data. -/
def rVals (s : Spectrum) : List ℚ := s.map (·.reflectance)

/-- reflectance[-1], the last reflectance value (default 0 is never used
under the guards of the source). -/
def rLast (s : Spectrum) : ℚ := (rVals s).getLastD 0

/-- reflectance[100] (default 0 is never used under the guards of the
source). -/
def r100 (s : Spectrum) : ℚ := (rVals s).getD 100 0

/-- ndvi: (reflectance[-1] - reflectance[100]) / (reflectance[-1] +
reflectance[100]) if len(reflectance) > 100 else 0. -/
def ndvi (s : Spectrum) : PyF :=
  if 100 < (rVals s).length then
    PyF.div (.fin (rLast s - r100 s)) (.fin (rLast s + r100 s))
  else .fin 0

/-- The reflectance values of exactly those samples whose wavelength lies
in the band [680, 750] (the boolean mask of the source). -/
def bandVals (s : Spectrum) : List ℚ :=
  rVals (s.filter (fun p => decide (680 ≤ p.wavelength) && decide (p.wavelength ≤ 750)))

/-- np.trapz with unit spacing: the sum of the averages of consecutive
pairs; 0 on lists with fewer than two entries. -/
def npTrapz : List ℚ → ℚ
  | a :: b :: rest => (a + b) / 2 + npTrapz (b :: rest)
  | _ => 0

/-- red_edge: np.trapz of the in-band reflectances when at least one
sample is in band, else 0. -/
def red_edge (s : Spectrum) : ℚ :=
  if 0 < (bandVals s).length then npTrapz (bandVals s) else 0

/-- maturity_score = min(100, max(0, 50 + ndvi * 100 + red_edge * 50)). -/
def maturity_score (s : Spectrum) : PyF :=
  PyF.pymin (.fin 100) (PyF.pymax (.fin 0)
    (PyF.add (PyF.add (.fin 50) (PyF.mul (ndvi s) (.fin 100)))
      (PyF.mul (.fin (red_edge s)) (.fin 50))))

/-- boll_weight = 4.5 + (maturity_score / 100) * 1.5. -/
def boll_weight (s : Spectrum) : PyF :=
  PyF.add (.fin (9/2)) (PyF.mul (PyF.div (maturity_score s) (.fin 100)) (.fin (3/2)))

/-- chlorophyll_a = 1.2 + ndvi * 0.8. -/
def chlorophyll_a (s : Spectrum) : PyF :=
  PyF.add (.fin (6/5)) (PyF.mul (ndvi s) (.fin (4/5)))

/-- chlorophyll_b = 1.0 + ndvi * 0.6. -/
def chlorophyll_b (s : Spectrum) : PyF :=
  PyF.add (.fin 1) (PyF.mul (ndvi s) (.fin (3/5)))

/-- total_chlorophyll = chlorophyll_a + chlorophyll_b. -/
def total_chlorophyll (s : Spectrum) : PyF :=
  PyF.add (chlorophyll_a s) (chlorophyll_b s)

/-- anthocyanin = 1.5 + (1 - ndvi) * 0.8. -/
def anthocyanin (s : Spectrum) : PyF :=
  PyF.add (.fin (3/2)) (PyF.mul (PyF.sub (.fin 1) (ndvi s)) (.fin (4/5)))

/-- The detection-type key for maturity mode. -/
def kMaturity : String := "成熟度"

/-- The detection-type key for chlorophyll mode. -/
def kChlorophyll : String := "叶绿素"

/-- The detection-type key for anthocyanin mode. -/
def kAnthocyanin : String := "花青素"

def lMature : String := "成熟"
def lImmature : String := "未成熟"
def lGoodA : String := "优"
def lGoodB : String := "良"
def lGoodC : String := "中"
def rec3 : String := "建议3天内采摘"
def rec57 : String := "建议5-7天后采摘"
def recGrow : String := "建议继续生长"
def stNormal : String := "正常"
def stHigh : String := "偏高"
def stLow : String := "偏低"
def aStrong : String := "强"
def aMid : String := "中"
def aWeak : String := "弱"
def stageFull : String := "完全成熟"
def stageMid : String := "中期成熟"
def stageEarly : String := "初期"

/-- The result dictionary of the 成熟度 (maturity) branch. -/
structure MaturityR where
  score : PyF
  boll_weight : PyF
  fiber_quality : String
  maturity_status : String
  recommendation : String
  confidence : PyF
  deriving DecidableEq

/-- The result dictionary of the 叶绿素 (chlorophyll) branch. -/
structure ChlorophyllR where
  total : PyF
  chlorophyll_a : PyF
  chlorophyll_b : PyF
  status : String
  confidence : PyF
  deriving DecidableEq

/-- The result dictionary of the 花青素 (anthocyanin) branch. -/
structure AnthocyaninR where
  content : PyF
  antioxidant : String
  accumulation_stage : String
  confidence : PyF
  deriving DecidableEq

/-- The tagged union of the three result shapes. -/
inductive AnalysisResult where
  | maturity (r : MaturityR)
  | chlorophyll (r : ChlorophyllR)
  | anthocyanin (r : AnthocyaninR)
  deriving DecidableEq

/-- The value returned by the 成熟度 branch of analyze_spectral_data. -/
def maturityResult (s : Spectrum) : MaturityR :=
  { score := PyF.round 1 (maturity_score s)
    boll_weight := PyF.round 2 (boll_weight s)
    fiber_quality :=
      if PyF.lt (.fin 80) (maturity_score s) then lGoodA
      else if PyF.lt (.fin 60) (maturity_score s) then lGoodB else lGoodC
    maturity_status :=
      if PyF.le (.fin 60) (maturity_score s) then lMature else lImmature
    recommendation :=
      if PyF.lt (.fin 80) (maturity_score s) then rec3
      else if PyF.lt (.fin 60) (maturity_score s) then rec57 else recGrow
    confidence := PyF.round 1 (PyF.pymin (.fin 95)
      (PyF.add (.fin 70) (PyF.mul (maturity_score s) (.fin (1/4))))) }

/-- The value returned by the 叶绿素 branch of analyze_spectral_data. -/
def chlorophyllResult (s : Spectrum) : ChlorophyllR :=
  { total := PyF.round 2 (total_chlorophyll s)
    chlorophyll_a := PyF.round 2 (chlorophyll_a s)
    chlorophyll_b := PyF.round 2 (chlorophyll_b s)
    status :=
      if PyF.le (.fin 2) (total_chlorophyll s) && PyF.le (total_chlorophyll s) (.fin 3)
      then stNormal
      else if PyF.lt (.fin 3) (total_chlorophyll s) then stHigh else stLow
    confidence := PyF.round 1 (PyF.pymin (.fin 95)
      (PyF.add (.fin 65) (PyF.mul (total_chlorophyll s) (.fin 10)))) }

/-- The value returned by the 花青素 branch of analyze_spectral_data. -/
def anthocyaninResult (s : Spectrum) : AnthocyaninR :=
  { content := PyF.round 2 (anthocyanin s)
    antioxidant :=
      if PyF.lt (.fin 2) (anthocyanin s) then aStrong
      else if PyF.lt (.fin (3/2)) (anthocyanin s) then aMid else aWeak
    accumulation_stage :=
      if PyF.lt (.fin 2) (anthocyanin s) then stageFull
      else if PyF.lt (.fin (3/2)) (anthocyanin s) then stageMid else stageEarly
    confidence := PyF.round 1 (PyF.pymin (.fin 95)
      (PyF.add (.fin 60) (PyF.mul (anthocyanin s) (.fin 15)))) }

/-- analyze_spectral_data(data, detection_type): none on an empty
spectrum, the mode-specific dictionary on a recognized detection type,
and none on any other detection-type string. -/
def analyze_spectral_data (data : Spectrum) (detection_type : String) :
    Option AnalysisResult :=
  if data.length = 0 then none
  else if detection_type = kMaturity then some (.maturity (maturityResult data))
  else if detection_type = kChlorophyll then some (.chlorophyll (chlorophyllResult data))
  else if detection_type = kAnthocyanin then some (.anthocyanin (anthocyaninResult data))
  else none

/-- A constant spectrum with wavelengths 0, 1, ..., n-1 (all far below the
red-edge band) and constant reflectance v. -/
def constSpec (n : ℕ) (v : ℚ) : Spectrum :=
  (List.range n).map (fun i => ⟨(i : ℚ), v⟩)

/-- 101 samples, all reflectance 0: reflectance[-1] + reflectance[100] = 0. -/
def spectrum101 : Spectrum := constSpec 101 0

/-- 102 samples, all reflectance 1: more than 100 samples, ndvi still 0. -/
def spectrum102 : Spectrum := constSpec 102 1

/-- 102 samples whose ndvi evaluates to -10. -/
def specNeg : Spectrum := constSpec 100 0 ++ [⟨100, 11/20⟩, ⟨101, -(9/20)⟩]

/-- 102 samples whose ndvi evaluates to 1/2. -/
def spec102c : Spectrum := constSpec 100 0 ++ [⟨100, 1/5⟩, ⟨101, 3/5⟩]

/-- A one-sample spectrum away from the red-edge band. -/
def specSmall : Spectrum := [⟨400, 1/10⟩]

/-- Two in-band samples giving red_edge = 1/5 and maturity score exactly 60. -/
def spec60 : Spectrum := [⟨680, 1/5⟩, ⟨681, 1/5⟩]

/-- Two in-band samples giving an unrounded maturity score of 59.97. -/
def spec5997 : Spectrum := [⟨680, 1/5⟩, ⟨690, 497/2500⟩]

/-- An unrecognized detection-type string. -/
def unknownMode : String := "Maturity"

/-! ## Evaluation lemmas for PyF on finite values -/

theorem add_fin_fin (a b : ℚ) : PyF.add (.fin a) (.fin b) = .fin (a + b) := rfl

theorem mul_fin_fin (a b : ℚ) : PyF.mul (.fin a) (.fin b) = .fin (a * b) := rfl

theorem sub_fin_fin (a b : ℚ) : PyF.sub (.fin a) (.fin b) = .fin (a - b) := by
  show PyF.fin (a + -b) = PyF.fin (a - b)
  rw [← sub_eq_add_neg]

theorem lt_fin_fin (a b : ℚ) : PyF.lt (.fin a) (.fin b) = decide (a < b) := rfl

theorem le_fin_fin (a b : ℚ) : PyF.le (.fin a) (.fin b) = decide (a ≤ b) := rfl

theorem div_fin_hundred (q : ℚ) : PyF.div (.fin q) (.fin 100) = .fin (q / 100) := by
  show (if (100 : ℚ) = 0 then (if 0 < q then PyF.pinf else if q < 0 then PyF.ninf else PyF.nan)
      else PyF.fin (q / 100)) = PyF.fin (q / 100)
  norm_num

theorem round_fin (n : ℕ) (q : ℚ) : PyF.round n (.fin q) = .fin (pyRoundQ q n) := rfl

theorem pymin_fin_fin (a b : ℚ) : PyF.pymin (.fin a) (.fin b) = .fin (min a b) := by
  unfold PyF.pymin
  rw [lt_fin_fin]
  by_cases h : b < a
  · simp only [decide_eq_true_eq]
    rw [if_pos h, min_eq_right (le_of_lt h)]
  · simp only [decide_eq_true_eq]
    rw [if_neg h, min_eq_left (le_of_not_lt h)]

theorem pymax_fin_fin (a b : ℚ) : PyF.pymax (.fin a) (.fin b) = .fin (max a b) := by
  unfold PyF.pymax
  rw [lt_fin_fin]
  by_cases h : a < b
  · simp only [decide_eq_true_eq]
    rw [if_pos h, max_eq_right (le_of_lt h)]
  · simp only [decide_eq_true_eq]
    rw [if_neg h, max_eq_left (le_of_not_lt h)]

/-! ## Bounds for round half to even -/

theorem rhe_mem (q : ℚ) : rhe q = Int.floor q ∨ rhe q = Int.floor q + 1 := by
  unfold rhe
  split_ifs <;> simp

theorem rhe_nonneg (q : ℚ) (h : 0 ≤ q) : 0 ≤ rhe q := by
  have hf : 0 ≤ Int.floor q := Int.floor_nonneg.mpr h
  rcases rhe_mem q with h2 | h2 <;> rw [h2] <;> omega

theorem rhe_le_int (q : ℚ) (m : ℤ) (h : q ≤ (m : ℚ)) : rhe q ≤ m := by
  have hf : Int.floor q ≤ m := by
    have h2 := Int.floor_mono h
    rwa [Int.floor_intCast] at h2
  have hstep : (1 : ℚ)/2 ≤ q - (Int.floor q : ℚ) → Int.floor q + 1 ≤ m := by
    intro hh
    have h1 : (Int.floor q : ℚ) < (m : ℚ) := by linarith
    have h2 : Int.floor q < m := by exact_mod_cast h1
    omega
  unfold rhe
  split_ifs with a b
  · exact hf
  · exact hstep (le_of_lt b)
  · exact hf
  · exact hstep (not_lt.mp a)

theorem pyRoundQ_nonneg (c : ℚ) (n : ℕ) (h : 0 ≤ c) : 0 ≤ pyRoundQ c n := by
  unfold pyRoundQ
  apply div_nonneg
  · exact_mod_cast rhe_nonneg _ (mul_nonneg h (by positivity))
  · positivity

theorem pyRoundQ_le_95 (c : ℚ) (h : c ≤ 95) : pyRoundQ c 1 ≤ 95 := by
  unfold pyRoundQ
  rw [div_le_iff₀ (by norm_num : (0 : ℚ) < 10 ^ 1)]
  have h2 : rhe (c * 10 ^ 1) ≤ (950 : ℤ) := by
    apply rhe_le_int
    push_cast
    linarith
  calc ((rhe (c * 10 ^ 1) : ℤ) : ℚ) ≤ ((950 : ℤ) : ℚ) := by exact_mod_cast h2
    _ = 95 * 10 ^ 1 := by norm_num

/-! ## Branch lemmas for ndvi, maturity_score, analyze_spectral_data -/

theorem rVals_length (s : Spectrum) : (rVals s).length = s.length := by
  simp [rVals]

theorem ndvi_short (s : Spectrum) (h : s.length ≤ 100) : ndvi s = .fin 0 := by
  unfold ndvi
  rw [if_neg]
  rw [rVals_length]
  omega

theorem ndvi_long (s : Spectrum) (h : 100 < s.length) :
    ndvi s = PyF.div (.fin (rLast s - r100 s)) (.fin (rLast s + r100 s)) := by
  unfold ndvi
  rw [if_pos]
  rw [rVals_length]
  exact h

theorem ndvi_long_fin (s : Spectrum) (h : 100 < s.length)
    (hden : rLast s + r100 s ≠ 0) :
    ndvi s = .fin ((rLast s - r100 s) / (rLast s + r100 s)) := by
  rw [ndvi_long s h]
  show (if rLast s + r100 s = 0 then _ else _) = _
  rw [if_neg hden]

theorem maturity_score_of_fin (s : Spectrum) (n : ℚ) (hn : ndvi s = .fin n) :
    maturity_score s = .fin (min 100 (max 0 (50 + n * 100 + red_edge s * 50))) := by
  unfold maturity_score
  rw [hn, mul_fin_fin, mul_fin_fin, add_fin_fin, add_fin_fin, pymax_fin_fin, pymin_fin_fin]

theorem maturity_score_fin (s : Spectrum) :
    ∃ q : ℚ, maturity_score s = .fin q ∧ 0 ≤ q ∧ q ≤ 100 := by
  cases hn : ndvi s with
  | fin n =>
      exact ⟨_, maturity_score_of_fin s n hn,
        le_min (by norm_num) (le_max_left 0 _), min_le_left _ _⟩
  | pinf =>
      refine ⟨100, ?_, by norm_num, le_refl _⟩
      unfold maturity_score
      rw [hn]
      with_unfolding_all rfl
  | ninf =>
      refine ⟨0, ?_, le_refl _, by norm_num⟩
      unfold maturity_score
      rw [hn]
      with_unfolding_all rfl
  | nan =>
      refine ⟨0, ?_, le_refl _, by norm_num⟩
      unfold maturity_score
      rw [hn]
      with_unfolding_all rfl

theorem boll_weight_of_fin (s : Spectrum) (q : ℚ) (hq : maturity_score s = .fin q) :
    boll_weight s = .fin (9/2 + q / 100 * (3/2)) := by
  unfold boll_weight
  rw [hq, div_fin_hundred, mul_fin_fin, add_fin_fin]

theorem analyze_mat (s : Spectrum) (h : s ≠ []) :
    analyze_spectral_data s kMaturity = some (.maturity (maturityResult s)) := by
  cases s with
  | nil => exact absurd rfl h
  | cons a t => rfl

theorem analyze_chl (s : Spectrum) (h : s ≠ []) :
    analyze_spectral_data s kChlorophyll = some (.chlorophyll (chlorophyllResult s)) := by
  cases s with
  | nil => exact absurd rfl h
  | cons a t => rfl

theorem analyze_ant (s : Spectrum) (h : s ≠ []) :
    analyze_spectral_data s kAnthocyanin = some (.anthocyanin (anthocyaninResult s)) := by
  cases s with
  | nil => exact absurd rfl h
  | cons a t => rfl

theorem maturity_status_spec (s : Spectrum) (q : ℚ) (hq : maturity_score s = .fin q) :
    ((maturityResult s).maturity_status = lMature ↔ 60 ≤ q) := by
  have hstat : (maturityResult s).maturity_status
      = if PyF.le (.fin 60) (maturity_score s) then lMature else lImmature := rfl
  rw [hq, le_fin_fin] at hstat
  rw [hstat]
  by_cases h : (60 : ℚ) ≤ q
  · simp only [decide_eq_true_eq]
    rw [if_pos h]
    exact ⟨fun _ => h, fun _ => rfl⟩
  · simp only [decide_eq_true_eq]
    rw [if_neg h]
    constructor
    · intro hs
      exact absurd hs (by decide!)
    · intro hh
      exact absurd hh h

theorem npTrapz_eq_sum (l : List ℚ) :
    npTrapz l = ((l.zip l.tail).map (fun p => (p.1 + p.2) / 2)).sum := by
  induction l with
  | nil => rfl
  | cons a t ih =>
      cases t with
      | nil => rfl
      | cons b r =>
          show (a + b) / 2 + npTrapz (b :: r) = _
          rw [ih]
          simp

/-! ## Claim theorems -/

/-- Claim C1: on the 101-sample all-zero spectrum the last and index-100
reflectance values sum to zero; the code computes ndvi as nan (numpy
division 0/0, a warning rather than an exception), not as the zero index
the specification prescribes, while still returning a result in each of
the three detection modes. -/
theorem ndvi_zero_denominator_nan :
    100 < spectrum101.length ∧
    rLast spectrum101 + r100 spectrum101 = 0 ∧
    ndvi spectrum101 = PyF.nan ∧
    ¬ ndvi spectrum101 = PyF.fin 0 ∧
    (analyze_spectral_data spectrum101 kMaturity).isSome = true ∧
    (analyze_spectral_data spectrum101 kChlorophyll).isSome = true ∧
    (analyze_spectral_data spectrum101 kAnthocyanin).isSome = true := by
  refine ⟨by decide!, by decide!, by decide!, by decide!, by decide!, by decide!, by decide!⟩

/-- Claim C2, counterexample: the 102-sample constant-1 spectrum has more
than 100 samples and nevertheless ndvi = 0, so ndvi = 0 does not hold
exactly when the spectrum has at most 100 samples. -/
theorem ndvi_zero_for_long_spectrum :
    ¬ (ndvi spectrum102 = PyF.fin 0 ↔ spectrum102.length ≤ 100) := by
  decide!

/-- Claim C2 (amended): ndvi is 0 whenever the spectrum has at most 100
samples (it can also be 0 for longer spectra); with more than 100 samples
it is the IEEE quotient of reflectance[-1] - reflectance[100] by
reflectance[-1] + reflectance[100], which equals the exact rational
quotient whenever that denominator is nonzero. -/
theorem ndvi_branch_values (s : Spectrum) :
    (s.length ≤ 100 → ndvi s = .fin 0) ∧
    (100 < s.length →
      ndvi s = PyF.div (.fin (rLast s - r100 s)) (.fin (rLast s + r100 s))) ∧
    (100 < s.length → rLast s + r100 s ≠ 0 →
      ndvi s = .fin ((rLast s - r100 s) / (rLast s + r100 s))) :=
  ⟨fun h => ndvi_short s h, fun h => ndvi_long s h, fun h hd => ndvi_long_fin s h hd⟩

/-- Witness for the amended claim C2 at two concrete spectra. -/
theorem ndvi_branch_values_witness :
    ndvi specSmall = PyF.fin 0 ∧
    ndvi spec102c = PyF.div (.fin (rLast spec102c - r100 spec102c))
      (.fin (rLast spec102c + r100 spec102c)) ∧
    ndvi spec102c = PyF.fin ((rLast spec102c - r100 spec102c) / (rLast spec102c + r100 spec102c)) :=
  ⟨(ndvi_branch_values specSmall).1 (by decide!),
    (ndvi_branch_values spec102c).2.1 (by decide!),
    (ndvi_branch_values spec102c).2.2 (by decide!) (by decide!)⟩

/-- Claim C3, counterexample: on a 102-sample spectrum whose ndvi is -10 the
Chlorophyll-mode result carries confidence -53, which is not in [0, 95]. -/
theorem chlorophyll_confidence_negative :
    analyze_spectral_data specNeg kChlorophyll
      = some (.chlorophyll (chlorophyllResult specNeg)) ∧
    (chlorophyllResult specNeg).confidence = .fin (-53) ∧
    ¬ (0 : ℚ) ≤ -53 := by
  refine ⟨by decide!, by decide!, by norm_num⟩

/-- Claim C3 (amended): the confidence carried by each mode's result is the
stated formula rounded to one decimal, and it lies in [0, 95] whenever the
ndvi index is finite and lies in [-1, 1] (as it does for nonnegative
reflectance with a nonzero denominator); outside that range the
Chlorophyll and Anthocyanin confidences can drop below 0. -/
theorem confidence_bounds_of_ndvi_in_unit (s : Spectrum) (hne : s ≠ []) (n : ℚ)
    (hn : ndvi s = .fin n) (hlo : -1 ≤ n) (hhi : n ≤ 1) :
    (analyze_spectral_data s kMaturity = some (.maturity (maturityResult s)) ∧
      (maturityResult s).confidence = PyF.round 1 (PyF.pymin (.fin 95)
        (PyF.add (.fin 70) (PyF.mul (maturity_score s) (.fin (1/4))))) ∧
      ∃ c : ℚ, (maturityResult s).confidence = .fin c ∧ 0 ≤ c ∧ c ≤ 95) ∧
    (analyze_spectral_data s kChlorophyll = some (.chlorophyll (chlorophyllResult s)) ∧
      (chlorophyllResult s).confidence = PyF.round 1 (PyF.pymin (.fin 95)
        (PyF.add (.fin 65) (PyF.mul (total_chlorophyll s) (.fin 10)))) ∧
      ∃ c : ℚ, (chlorophyllResult s).confidence = .fin c ∧ 0 ≤ c ∧ c ≤ 95) ∧
    (analyze_spectral_data s kAnthocyanin = some (.anthocyanin (anthocyaninResult s)) ∧
      (anthocyaninResult s).confidence = PyF.round 1 (PyF.pymin (.fin 95)
        (PyF.add (.fin 60) (PyF.mul (anthocyanin s) (.fin 15)))) ∧
      ∃ c : ℚ, (anthocyaninResult s).confidence = .fin c ∧ 0 ≤ c ∧ c ≤ 95) := by
  refine ⟨⟨analyze_mat s hne, rfl, ?_⟩, ⟨analyze_chl s hne, rfl, ?_⟩,
    ⟨analyze_ant s hne, rfl, ?_⟩⟩
  · obtain ⟨q, hq, h0, h1⟩ := maturity_score_fin s
    have hc : (maturityResult s).confidence = .fin (pyRoundQ (min 95 (70 + q * (1/4))) 1) := by
      have h2 : (maturityResult s).confidence = PyF.round 1 (PyF.pymin (.fin 95)
          (PyF.add (.fin 70) (PyF.mul (maturity_score s) (.fin (1/4))))) := rfl
      rw [h2, hq, mul_fin_fin, add_fin_fin, pymin_fin_fin, round_fin]
    exact ⟨_, hc, pyRoundQ_nonneg _ 1 (le_min (by norm_num) (by linarith)),
      pyRoundQ_le_95 _ (min_le_left _ _)⟩
  · have htc : total_chlorophyll s = .fin ((6/5 + n * (4/5)) + (1 + n * (3/5))) := by
      unfold total_chlorophyll chlorophyll_a chlorophyll_b
      rw [hn, mul_fin_fin, mul_fin_fin, add_fin_fin, add_fin_fin, add_fin_fin]
    have hc : (chlorophyllResult s).confidence
        = .fin (pyRoundQ (min 95 (65 + ((6/5 + n * (4/5)) + (1 + n * (3/5))) * 10)) 1) := by
      have h2 : (chlorophyllResult s).confidence = PyF.round 1 (PyF.pymin (.fin 95)
          (PyF.add (.fin 65) (PyF.mul (total_chlorophyll s) (.fin 10)))) := rfl
      rw [h2, htc, mul_fin_fin, add_fin_fin, pymin_fin_fin, round_fin]
    exact ⟨_, hc, pyRoundQ_nonneg _ 1 (le_min (by norm_num) (by linarith)),
      pyRoundQ_le_95 _ (min_le_left _ _)⟩
  · have ha : anthocyanin s = .fin (3/2 + (1 - n) * (4/5)) := by
      unfold anthocyanin
      rw [hn, sub_fin_fin, mul_fin_fin, add_fin_fin]
    have hc : (anthocyaninResult s).confidence
        = .fin (pyRoundQ (min 95 (60 + (3/2 + (1 - n) * (4/5)) * 15)) 1) := by
      have h2 : (anthocyaninResult s).confidence = PyF.round 1 (PyF.pymin (.fin 95)
          (PyF.add (.fin 60) (PyF.mul (anthocyanin s) (.fin 15)))) := rfl
      rw [h2, ha, mul_fin_fin, add_fin_fin, pymin_fin_fin, round_fin]
    exact ⟨_, hc, pyRoundQ_nonneg _ 1 (le_min (by norm_num) (by linarith)),
      pyRoundQ_le_95 _ (min_le_left _ _)⟩

/-- Witness for the amended claim C3 at a concrete one-sample spectrum. -/
theorem confidence_bounds_witness :
    (∃ c : ℚ, (maturityResult specSmall).confidence = .fin c ∧ 0 ≤ c ∧ c ≤ 95) ∧
    (∃ c : ℚ, (chlorophyllResult specSmall).confidence = .fin c ∧ 0 ≤ c ∧ c ≤ 95) ∧
    (∃ c : ℚ, (anthocyaninResult specSmall).confidence = .fin c ∧ 0 ≤ c ∧ c ≤ 95) := by
  have h := confidence_bounds_of_ndvi_in_unit specSmall (by decide!) 0 (by decide!)
    (by norm_num) (by norm_num)
  exact ⟨h.1.2.2, h.2.1.2.2, h.2.2.2.2⟩

/-- Claim C4: in Maturity mode the returned status is 成熟 (mature) exactly
when the maturity score is at least 60; a score of exactly 60 is mature. -/
theorem maturity_status_iff_score_ge (s : Spectrum) (hne : s ≠ []) (q : ℚ)
    (hq : maturity_score s = .fin q) :
    analyze_spectral_data s kMaturity = some (.maturity (maturityResult s)) ∧
    ((maturityResult s).maturity_status = lMature ↔ 60 ≤ q) ∧
    (q = 60 → (maturityResult s).maturity_status = lMature) := by
  refine ⟨analyze_mat s hne, maturity_status_spec s q hq, ?_⟩
  intro h
  exact (maturity_status_spec s q hq).mpr (by rw [h])

/-- Witness for claim C4 at the spectrum whose score is exactly 60. -/
theorem maturity_status_boundary_witness :
    analyze_spectral_data spec60 kMaturity = some (.maturity (maturityResult spec60)) ∧
    (maturityResult spec60).maturity_status = lMature :=
  ⟨(maturity_status_iff_score_ge spec60 (by decide!) 60 (by decide!)).1,
    (maturity_status_iff_score_ge spec60 (by decide!) 60 (by decide!)).2.2 rfl⟩

/-- Claim C5: the maturity score is the clamp of 50 + 100 ndvi + 50 red_edge
to [0, 100], hence always in [0, 100], and the boll-weight estimate is
4.5 + 1.5 (score / 100), carried in the result rounded to two decimals. -/
theorem maturity_score_clamp_and_boll (s : Spectrum) (hne : s ≠ []) :
    ∃ q : ℚ, maturity_score s = .fin q ∧ 0 ≤ q ∧ q ≤ 100 ∧
      (∀ n : ℚ, ndvi s = .fin n →
        q = min 100 (max 0 (50 + n * 100 + red_edge s * 50))) ∧
      boll_weight s = .fin (9/2 + q / 100 * (3/2)) ∧
      (maturityResult s).boll_weight = .fin (pyRoundQ (9/2 + q / 100 * (3/2)) 2) ∧
      analyze_spectral_data s kMaturity = some (.maturity (maturityResult s)) := by
  obtain ⟨q, hq, h0, h1⟩ := maturity_score_fin s
  have hb := boll_weight_of_fin s q hq
  refine ⟨q, hq, h0, h1, ?_, hb, ?_, analyze_mat s hne⟩
  · intro n hn
    have h2 := maturity_score_of_fin s n hn
    rw [hq] at h2
    injection h2
  · have h3 : (maturityResult s).boll_weight = PyF.round 2 (boll_weight s) := rfl
    rw [h3, hb, round_fin]

/-- Witness for claim C5 at a concrete two-sample spectrum. -/
theorem maturity_score_clamp_witness :
    ∃ q : ℚ, maturity_score spec60 = .fin q ∧ 0 ≤ q ∧ q ≤ 100 ∧
      (∀ n : ℚ, ndvi spec60 = .fin n →
        q = min 100 (max 0 (50 + n * 100 + red_edge spec60 * 50))) ∧
      boll_weight spec60 = .fin (9/2 + q / 100 * (3/2)) ∧
      (maturityResult spec60).boll_weight = .fin (pyRoundQ (9/2 + q / 100 * (3/2)) 2) ∧
      analyze_spectral_data spec60 kMaturity = some (.maturity (maturityResult spec60)) :=
  maturity_score_clamp_and_boll spec60 (by decide!)

/-- Claim C6: red_edge equals the trapezoidal sum over exactly the
reflectances of the samples whose wavelength lies in [680, 750], and it is
0 when no sample lies in the band. -/
theorem red_edge_trapezoid (s : Spectrum) :
    red_edge s
      = (((bandVals s).zip (bandVals s).tail).map (fun p => (p.1 + p.2) / 2)).sum ∧
    (bandVals s = [] → red_edge s = 0) := by
  constructor
  · rw [← npTrapz_eq_sum]
    unfold red_edge
    by_cases h : 0 < (bandVals s).length
    · rw [if_pos h]
    · rw [if_neg h]
      have h0 : bandVals s = [] := by
        cases hb : bandVals s with
        | nil => rfl
        | cons x xs => rw [hb] at h; exact absurd (Nat.succ_pos _) h
      rw [h0]
      rfl
  · intro h
    unfold red_edge
    rw [h]
    rfl

/-- Witness for claim C6 at a spectrum with no in-band sample. -/
theorem red_edge_trapezoid_witness :
    red_edge specSmall
      = (((bandVals specSmall).zip (bandVals specSmall).tail).map
          (fun p => (p.1 + p.2) / 2)).sum ∧
    red_edge specSmall = 0 :=
  ⟨(red_edge_trapezoid specSmall).1, (red_edge_trapezoid specSmall).2 (by decide!)⟩

/-- Claim C7: the chlorophyll a and b values are strictly increasing and the
anthocyanin content strictly decreasing in the ndvi index: whenever two
spectra have finite ndvi values q1 < q2, the a and b values of the first
are strictly below those of the second, and its anthocyanin content is
strictly above. -/
theorem chlorophyll_mono_anthocyanin_anti (s1 s2 : Spectrum) (q1 q2 : ℚ)
    (h1 : ndvi s1 = .fin q1) (h2 : ndvi s2 = .fin q2) (hlt : q1 < q2) :
    PyF.lt (chlorophyll_a s1) (chlorophyll_a s2) = true ∧
    PyF.lt (chlorophyll_b s1) (chlorophyll_b s2) = true ∧
    PyF.lt (anthocyanin s2) (anthocyanin s1) = true := by
  unfold chlorophyll_a chlorophyll_b anthocyanin
  rw [h1, h2]
  simp only [mul_fin_fin, sub_fin_fin, add_fin_fin, lt_fin_fin, decide_eq_true_eq]
  refine ⟨by linarith, by linarith, by linarith⟩

/-- Witness for claim C7 at two concrete spectra with ndvi 0 and 1/2. -/
theorem chlorophyll_mono_witness :
    PyF.lt (chlorophyll_a specSmall) (chlorophyll_a spec102c) = true ∧
    PyF.lt (chlorophyll_b specSmall) (chlorophyll_b spec102c) = true ∧
    PyF.lt (anthocyanin spec102c) (anthocyanin specSmall) = true :=
  chlorophyll_mono_anthocyanin_anti specSmall spec102c 0 (1/2)
    (by decide!) (by decide!) (by norm_num)

/-- Claim C8: analyze_spectral_data returns none exactly on the empty
spectrum, for each of the three recognized detection modes. -/
theorem analyze_none_iff_empty (s : Spectrum) (mode : String)
    (hm : mode = kMaturity ∨ mode = kChlorophyll ∨ mode = kAnthocyanin) :
    (analyze_spectral_data s mode = none ↔ s = []) := by
  constructor
  · intro h
    cases s with
    | nil => rfl
    | cons a t =>
        rcases hm with h2 | h2 | h2 <;> subst h2
        · rw [analyze_mat (a :: t) (by simp)] at h
          exact absurd h (by simp)
        · rw [analyze_chl (a :: t) (by simp)] at h
          exact absurd h (by simp)
        · rw [analyze_ant (a :: t) (by simp)] at h
          exact absurd h (by simp)
  · intro h
    subst h
    rfl

/-- Witness for claim C8 at concrete spectra and modes. -/
theorem analyze_none_iff_empty_witness :
    (analyze_spectral_data specSmall kMaturity = none ↔ specSmall = []) ∧
    (analyze_spectral_data [] kChlorophyll = none ↔ ([] : Spectrum) = []) ∧
    (analyze_spectral_data [] kAnthocyanin = none ↔ ([] : Spectrum) = []) :=
  ⟨analyze_none_iff_empty specSmall kMaturity (Or.inl rfl),
    analyze_none_iff_empty [] kChlorophyll (Or.inr (Or.inl rfl)),
    analyze_none_iff_empty [] kAnthocyanin (Or.inr (Or.inr rfl))⟩

/-- Claim C9: any detection-type string other than the three recognized
keys makes analyze_spectral_data return none, for every spectrum,
empty or not. -/
theorem analyze_unknown_mode_none (s : Spectrum) (mode : String)
    (h1 : mode ≠ kMaturity) (h2 : mode ≠ kChlorophyll) (h3 : mode ≠ kAnthocyanin) :
    analyze_spectral_data s mode = none := by
  unfold analyze_spectral_data
  by_cases h : s.length = 0
  · rw [if_pos h]
  · rw [if_neg h, if_neg h1, if_neg h2, if_neg h3]

/-- Witness for claim C9: the English string Maturity is not recognized. -/
theorem analyze_unknown_mode_witness :
    analyze_spectral_data specSmall unknownMode = none :=
  analyze_unknown_mode_none specSmall unknownMode (by decide!) (by decide!) (by decide!)

/-- Claim C10: the status, boll weight and confidence fields are computed
from the unrounded maturity score while the score field carries it rounded
to one decimal; on a concrete spectrum with unrounded score 59.97 the
returned score field is 60.0 yet the status is 未成熟 (immature), so the
mature-iff-at-least-60 relation holds for the internal score and fails for
the rounded score field. -/
theorem rounded_score_vs_status :
    (∀ s : Spectrum, ∀ q : ℚ, maturity_score s = .fin q →
      (maturityResult s).score = .fin (pyRoundQ q 1) ∧
      ((maturityResult s).maturity_status = lMature ↔ 60 ≤ q) ∧
      (maturityResult s).boll_weight = PyF.round 2 (boll_weight s) ∧
      (maturityResult s).confidence = PyF.round 1 (PyF.pymin (.fin 95)
        (PyF.add (.fin 70) (PyF.mul (maturity_score s) (.fin (1/4)))))) ∧
    (analyze_spectral_data spec5997 kMaturity
        = some (.maturity (maturityResult spec5997)) ∧
      maturity_score spec5997 = .fin (5997/100) ∧
      (1199/20 : ℚ) ≤ 5997/100 ∧ (5997/100 : ℚ) < 60 ∧
      (maturityResult spec5997).score = .fin 60 ∧
      (maturityResult spec5997).maturity_status = lImmature) := by
  constructor
  · intro s q hq
    refine ⟨?_, maturity_status_spec s q hq, rfl, rfl⟩
    have h2 : (maturityResult s).score = PyF.round 1 (maturity_score s) := rfl
    rw [h2, hq, round_fin]
  · exact ⟨analyze_mat spec5997 (by decide!), by decide!, by norm_num, by norm_num,
      by decide!, by decide!⟩

/-- Witness for claim C10 at the concrete spectrum with score 59.97. -/
theorem rounded_score_vs_status_witness :
    (maturityResult spec5997).score = .fin (pyRoundQ (5997/100) 1) ∧
    ((maturityResult spec5997).maturity_status = lMature ↔ 60 ≤ (5997/100 : ℚ)) :=
  ⟨(rounded_score_vs_status.1 spec5997 (5997/100) (by decide!)).1,
    (rounded_score_vs_status.1 spec5997 (5997/100) (by decide!)).2.1⟩
